/-
Verification of the AI request broker core (backend/ai of ai-web-builder).

Shallow embedding conventions:
* Python floats are modelled as exact rationals (ℚ); the numeric facts
  established below are far outside floating-point rounding error.
* `datetime.utcnow()` is modelled by an explicit `now : ℕ` (seconds).
* Redis is modelled as an association list from keys to values; single-key
  reads/writes are the only operations the embedded code uses.
* The SHA-256 request fingerprint is modelled by the canonical record that
  the source hashes (`RequestKey`); two fingerprints are equal exactly when
  the hashed data is equal, which is the collision-freeness the code relies on.
-/
import Mathlib

namespace AIWebBuilder

/-! ## Basic string helpers mirroring Python primitives

These are written over the underlying character list so that every
definition reduces structurally (no well-founded recursion). -/

/-- Substring occurrence over character lists. -/
def containsSub (pat : List Char) : List Char → Bool
  | [] => pat.isEmpty
  | c :: rest => pat.isPrefixOf (c :: rest) || containsSub pat rest

/-- Python `pat in s` (substring test). -/
def strContains (s pat : String) : Bool :=
  containsSub pat.data s.data

/-- Python `s.lower()`. -/
def pyLower (s : String) : String :=
  String.mk (s.data.map Char.toLower)

/-- Python `s.strip()`: drop leading and trailing whitespace. -/
def pyStrip (s : String) : String :=
  String.mk (((s.data.dropWhile Char.isWhitespace).reverse.dropWhile Char.isWhitespace).reverse)

/-- Python `s[:n]` (slice by characters). -/
def pyTake (s : String) (n : ℕ) : String :=
  String.mk (s.data.take n)

/-- Whitespace splitting: accumulate the current word (reversed) and cut at
whitespace runs. -/
def splitWsAux (acc : List Char) : List Char → List String
  | [] => if acc.isEmpty then [] else [String.mk acc.reverse]
  | c :: rest =>
      if c.isWhitespace then
        if acc.isEmpty then splitWsAux [] rest
        else String.mk acc.reverse :: splitWsAux [] rest
      else splitWsAux (c :: acc) rest

/-- Python `s.split()`: split on whitespace, dropping empty tokens. -/
def pySplitWs (s : String) : List String :=
  splitWsAux [] s.data

/-- Python `len(s.split())`, the word count used for token estimation. -/
def wordCount (s : String) : ℕ :=
  (pySplitWs s).length

/-! ## Model catalogue (ai/models.py) -/

/-- Embeds `ModelType` enum from `ai/models.py`. -/
inductive ModelType where
  | deepseekV3
  | geminiFlash
  | geminiPro
  | claudeSonnet
  | gpt4Turbo
  | gpt4Vision
  deriving DecidableEq, Repr

/-- The `.value` string of each `ModelType` member. -/
def ModelType.value : ModelType → String
  | .deepseekV3 => "deepseek-v3"
  | .geminiFlash => "gemini-1.5-flash"
  | .geminiPro => "gemini-1.5-pro"
  | .claudeSonnet => "claude-3.5-sonnet"
  | .gpt4Turbo => "gpt-4-turbo"
  | .gpt4Vision => "gpt-4-vision"

/-- Embeds `ModelCosts` dataclass: per-1M-token prices. -/
structure ModelCosts where
  inputCost : ℚ
  outputCost : ℚ
  imageCost : Option ℚ := none
  deriving DecidableEq, Repr

/-- Embeds `ModelCosts.calculate_cost`.  The Python guard `self.image_cost and
images > 0` is falsy when `image_cost` is `None` (or `0.0`) or no image is
attached. -/
def ModelCosts.calculateCost (mc : ModelCosts) (inputTokens outputTokens : ℤ)
    (images : ℕ := 0) : ℚ :=
  let inCost : ℚ := (inputTokens : ℚ) / 1000000 * mc.inputCost
  let outCost : ℚ := (outputTokens : ℚ) / 1000000 * mc.outputCost
  let imgCost : ℚ :=
    match mc.imageCost with
    | some c => if c ≠ 0 ∧ images > 0 then (images : ℚ) * c else 0
    | none => 0
  inCost + outCost + imgCost

/-- Embeds `MODEL_COSTS` table. -/
def MODEL_COSTS : ModelType → ModelCosts
  | .deepseekV3 => { inputCost := 14/100, outputCost := 28/100 }
  | .geminiFlash => { inputCost := 75/1000, outputCost := 30/100 }
  | .geminiPro => { inputCost := 125/100, outputCost := 5 }
  | .claudeSonnet => { inputCost := 3, outputCost := 15 }
  | .gpt4Turbo => { inputCost := 10, outputCost := 30 }
  | .gpt4Vision => { inputCost := 10, outputCost := 30, imageCost := some (765/100000) }

/-- One row of the `MODEL_CAPABILITIES` matrix. -/
structure ModelCapability where
  strengths : List String
  maxComplexity : ℕ
  contextLimit : ℕ
  qualityTier : String
  visionCapable : Bool := false
  deriving DecidableEq, Repr

/-- Embeds `MODEL_CAPABILITIES` table (complexity levels resolved to their numeric
values: MEDIUM=4, MODERATE=3, ADVANCED=6, PREMIUM=8, CRITICAL=10). -/
def MODEL_CAPABILITIES : ModelType → ModelCapability
  | .deepseekV3 =>
      { strengths := ["code_generation", "analysis", "optimization"],
        maxComplexity := 4, contextLimit := 32000, qualityTier := "basic" }
  | .geminiFlash =>
      { strengths := ["summarization", "translation", "content_writing"],
        maxComplexity := 3, contextLimit := 32000, qualityTier := "good" }
  | .geminiPro =>
      { strengths := ["analysis", "optimization", "component_generation"],
        maxComplexity := 6, contextLimit := 128000, qualityTier := "high" }
  | .claudeSonnet =>
      { strengths := ["content_writing", "campaign_analysis", "design_review"],
        maxComplexity := 8, contextLimit := 200000, qualityTier := "premium" }
  | .gpt4Turbo =>
      { strengths := ["complex_reasoning", "expert_analysis", "enterprise_tasks"],
        maxComplexity := 10, contextLimit := 128000, qualityTier := "enterprise" }
  | .gpt4Vision =>
      { strengths := ["design_review", "image_analysis", "visual_tasks"],
        maxComplexity := 10, contextLimit := 128000, qualityTier := "enterprise",
        visionCapable := true }

/-- Insertion order of the `MODEL_CAPABILITIES` dict, which fixes the
iteration order of `_get_candidate_models`. -/
def allModels : List ModelType :=
  [.deepseekV3, .geminiFlash, .geminiPro, .claudeSonnet, .gpt4Turbo, .gpt4Vision]

/-- Embeds `AIRequest` dataclass.  `task_type` and `user_tier` are plain strings in
the source (`task_type: str`); the router compares them against string
literals. -/
structure AIRequest where
  taskType : String
  complexity : ℕ
  content : String
  userTier : String
  maxCost : Option ℚ := none
  requiresVision : Bool := false
  contextLength : Option ℕ := none
  deriving DecidableEq, Repr

/-- Embeds `AIResponse` dataclass (timestamp in seconds since the epoch). -/
structure AIResponse where
  content : String
  modelUsed : ModelType
  inputTokens : ℤ
  outputTokens : ℤ
  cost : ℚ
  qualityScore : Option ℚ := none
  processingTime : Option ℚ := none
  timestamp : ℕ := 0
  deriving DecidableEq, Repr

/-! ## Router (ai/router.py) -/

/-- Per-model performance metrics with the defaults installed by
`AIRouter._initialize_performance_metrics` (`last_updated` is bookkeeping the
scoring never reads and is not modelled). -/
structure PerfMetrics where
  successRate : ℚ := 19/20
  avgQuality : ℚ := 4/5
  avgResponseTime : ℚ := 5
  costEfficiency : ℚ := 1
  deriving DecidableEq, Repr

/-- The metric record `_initialize_performance_metrics` installs for every model. -/
def initialMetrics : PerfMetrics := {}

/-- Embeds `ModelSelection` dataclass.  The human-readable `reason` string
(`_explain_selection`, pure formatting with no control-flow effect) is not
modelled. -/
structure ModelSelection where
  model : ModelType
  confidence : ℚ
  estimatedCost : ℚ
  fallbacks : List ModelType
  deriving DecidableEq, Repr

/-- Router state: the selection history (only the `selected_model` field of
each logged entry is ever read, by `_get_load_balancing_factor`; oldest
first) and the per-model performance metrics. -/
structure RouterState where
  selectionHistory : List String := []
  metrics : ModelType → PerfMetrics := fun _ => initialMetrics

/-- Embeds `AIRouter._apply_smart_optimizations`.  Both retagging tests read the
ORIGINAL `request.task_type`, so when both fire on a `content_writing`
request the second assignment wins. -/
def applySmartOptimizations (req : AIRequest) : AIRequest :=
  let contentLength := req.content.length
  let complexity1 :=
    if contentLength < 50 ∧ req.complexity > 3 then max 2 (req.complexity - 1)
    else if contentLength > 2000 ∧ req.complexity < 6 then min 8 (req.complexity + 1)
    else req.complexity
  let contentLower := pyLower req.content
  let codeIndicators := ["component", "function", "react", "javascript",
    "typescript", "css", "html", "api"]
  let task1 :=
    if codeIndicators.any (fun i => strContains contentLower i) ∧
        (req.taskType = "content_writing" ∨ req.taskType = "analysis")
    then "code_generation" else req.taskType
  let analysisIndicators := ["analyze", "review", "compare", "evaluate", "assess", "audit"]
  let task2 :=
    if analysisIndicators.any (fun i => strContains contentLower i) ∧
        req.taskType = "content_writing"
    then "analysis" else task1
  { req with complexity := complexity1, taskType := task2 }

/-- Embeds `AIRouter._get_candidate_models`.  After the two `continue` guards the
`if task in strengths / elif complexity <= max_complexity` pair always
appends (the `elif` test is the negation of the first guard), so candidacy
is exactly this filter, in catalogue insertion order. -/
def getCandidateModels (req : AIRequest) : List ModelType :=
  allModels.filter (fun m =>
    let cap := MODEL_CAPABILITIES m
    !(cap.maxComplexity < req.complexity) && !(req.requiresVision && !cap.visionCapable))

/-- Embeds `AIRouter._estimate_cost`: output-token multiplier per task type
(`output_multipliers.get(task_type, 1.0)`). -/
def outputMultiplier (taskType : String) : ℚ :=
  if taskType = "code_generation" then 2
  else if taskType = "content_writing" then 3/2
  else if taskType = "analysis" then 6/5
  else if taskType = "optimization" then 13/10
  else if taskType = "component_generation" then 5/2
  else if taskType = "campaign_analysis" then 9/5
  else 1

/-- Embeds `AIRouter._estimate_cost`.  `int(x)` on the non-negative estimates is
truncation, i.e. the floor. -/
def estimateCost (model : ModelType) (req : AIRequest) : ℚ :=
  let inputTokens : ℚ := (wordCount req.content : ℚ) * (13/10)
  let outputTokens : ℚ := inputTokens * outputMultiplier req.taskType
  (MODEL_COSTS model).calculateCost ⌊inputTokens⌋ ⌊outputTokens⌋
    (if req.requiresVision then 1 else 0)

/-- Embeds `AIRouter._calculate_cost_score`.  The guard `request.max_cost and
estimated_cost > request.max_cost` is falsy when `max_cost` is `None` or
`0.0`. -/
def calculateCostScore (model : ModelType) (req : AIRequest) : ℚ :=
  let estimatedCost := estimateCost model req
  let overCap : Bool :=
    match req.maxCost with
    | some mc => decide (mc ≠ 0) && decide (estimatedCost > mc)
    | none => false
  if overCap then 0
  else min 100 (max 0 (100 - estimatedCost / (1/10) * 100))

/-- Embeds `AIRouter._calculate_suitability_score`. -/
def calculateSuitabilityScore (model : ModelType) (req : AIRequest) : ℚ :=
  let cap := MODEL_CAPABILITIES model
  let baseScore : ℚ :=
    if req.taskType ∈ cap.strengths then 90
    else if req.complexity ≤ cap.maxComplexity then 70
    else 30
  let complexityBonus : ℚ := min 1 ((cap.maxComplexity : ℚ) / (req.complexity : ℚ)) * 10
  let qualityBonus : ℚ :=
    if cap.qualityTier = "basic" then 0
    else if cap.qualityTier = "good" then 5
    else if cap.qualityTier = "high" then 10
    else if cap.qualityTier = "premium" then 15
    else if cap.qualityTier = "enterprise" then 20
    else 0
  min 100 (baseScore + complexityBonus + qualityBonus)

/-- Embeds `AIRouter._calculate_performance_score`: the inner sum is already on a
0–100 scale, and the source then multiplies it by 100 again before capping
at 100. -/
def calculatePerformanceScore (m : PerfMetrics) : ℚ :=
  let performanceScore := m.successRate * 40 + m.avgQuality * 40 + min m.costEfficiency 2 * 10
  min 100 (performanceScore * 100)

/-- Embeds `tier_model_preference` table from `AIRouter._calculate_tier_score`. -/
def tierModelPreference (tier : String) : List ModelType :=
  if tier = "free" then [.deepseekV3, .geminiFlash]
  else if tier = "creator" then [.geminiFlash, .geminiPro, .deepseekV3]
  else if tier = "business" then [.geminiPro, .claudeSonnet, .geminiFlash]
  else if tier = "agency" then [.claudeSonnet, .gpt4Turbo, .geminiPro]
  else []

/-- Embeds `AIRouter._calculate_tier_score`. -/
def calculateTierScore (model : ModelType) (req : AIRequest) : ℚ :=
  let preferredModels := tierModelPreference req.userTier
  match preferredModels.findIdx? (fun x => x = model) with
  | some i => 100 - (i : ℚ) * 20
  | none =>
      if req.userTier = "free" ∧ (model = .claudeSonnet ∨ model = .gpt4Turbo) then 10
      else 50

/-- Embeds `AIRouter._score_model`: 40% cost, 30% suitability, 20% historical
performance, 10% tier appropriateness. -/
def scoreModel (metrics : ModelType → PerfMetrics) (model : ModelType) (req : AIRequest) : ℚ :=
  calculateCostScore model req * (2/5)
    + calculateSuitabilityScore model req * (3/10)
    + calculatePerformanceScore (metrics model) * (1/5)
    + calculateTierScore model req * (1/10)

/-- Python `l[-n:]`. -/
def lastN (n : ℕ) (l : List α) : List α := l.drop (l.length - n)

/-- Embeds `AIRouter._get_load_balancing_factor`, with the source's `if/elif`
chain verbatim: the `> 30` and `> 40` branches sit below `> 20` and are
unreachable. -/
def getLoadBalancingFactor (history : List String) (model : ModelType) : ℚ :=
  let recentSelections := (lastN 100 history).filter (fun s => s = model.value)
  let usageCount := recentSelections.length
  if usageCount > 20 then 9/10
  else if usageCount > 30 then 8/10
  else if usageCount > 40 then 7/10
  else 1

/-- Embeds `AIRouter._get_smart_fallback` (`tier_fallbacks.get` defaults to
DeepSeek for both the free tier and unknown tiers). -/
def getSmartFallback (req : AIRequest) : ModelType :=
  let preferredFallback :=
    if req.userTier = "creator" then ModelType.geminiFlash
    else if req.userTier = "business" then ModelType.geminiPro
    else if req.userTier = "agency" then ModelType.claudeSonnet
    else ModelType.deepseekV3
  if req.requiresVision then ModelType.gpt4Vision
  else if req.complexity > 7 ∧
      ¬(preferredFallback = .claudeSonnet ∨ preferredFallback = .gpt4Turbo) then
    ModelType.claudeSonnet
  else preferredFallback

/-- Stable insertion step for a descending sort on the adjusted score (the
middle component): an element is placed after every element whose key is ≥
its own, which reproduces Python stable `sort(key=..., reverse=True)`. -/
def insertScoredDesc (x : ModelType × ℚ × ℚ) :
    List (ModelType × ℚ × ℚ) → List (ModelType × ℚ × ℚ)
  | [] => [x]
  | y :: ys => if x.2.1 ≤ y.2.1 then y :: insertScoredDesc x ys else x :: y :: ys

/-- Stable descending sort by adjusted score (Python list.sort with
`key=lambda x: x[1], reverse=True`). -/
def sortScoredDesc (l : List (ModelType × ℚ × ℚ)) : List (ModelType × ℚ × ℚ) :=
  l.foldl (fun acc x => insertScoredDesc x acc) []

/-- Embeds `AIRouter.select_model`: optimise the request, score the candidates,
apply load balancing, sort, and build the selection (the appended history
log entry does not affect the returned selection). -/
def selectModel (st : RouterState) (req : AIRequest) : ModelSelection :=
  let optimizedRequest := applySmartOptimizations req
  let candidates := getCandidateModels optimizedRequest
  let scoredModels := candidates.map (fun m =>
    let score := scoreModel st.metrics m optimizedRequest
    (m, score * getLoadBalancingFactor st.selectionHistory m, score))
  let sorted := sortScoredDesc scoredModels
  match sorted with
  | [] =>
      let fallbackModel := getSmartFallback optimizedRequest
      { model := fallbackModel, confidence := 1/2,
        estimatedCost := estimateCost fallbackModel optimizedRequest,
        fallbacks := [.deepseekV3] }
  | best :: rest =>
      let fallbacks := (rest.take 2).map (fun x => x.1)
      let confidence0 := min (best.2.2 / 100) 1
      let confidence :=
        match rest with
        | [] => confidence0
        | second :: _ => min confidence0 (1/2 + (best.2.2 - second.2.2) / 100)
      { model := best.1, confidence := confidence,
        estimatedCost := estimateCost best.1 optimizedRequest,
        fallbacks := fallbacks }

/-! ## Fingerprint cache (ai/cache_manager.py)

The cache manager's own code requires `request.task_type` to be a `TaskType`
member (it calls `.value` on it and keys `cache_config` by the enum), so the
cache is embedded over requests whose task type is the enum. -/

/-- Embeds `TaskType` enum from `ai/models.py`. -/
inductive TaskType where
  | codeGeneration
  | contentWriting
  | analysis
  | optimization
  | translation
  | summarization
  | componentGeneration
  | campaignAnalysis
  | designReview
  deriving DecidableEq, Repr

/-- The `.value` string of each `TaskType` member. -/
def TaskType.value : TaskType → String
  | .codeGeneration => "code_generation"
  | .contentWriting => "content_writing"
  | .analysis => "analysis"
  | .optimization => "optimization"
  | .translation => "translation"
  | .summarization => "summarization"
  | .componentGeneration => "component_generation"
  | .campaignAnalysis => "campaign_analysis"
  | .designReview => "design_review"

/-- A request as seen by the cache manager (the fields it reads). -/
structure CacheRequest where
  taskType : TaskType
  complexity : ℕ
  content : String
  userTier : String
  requiresVision : Bool := false
  deriving DecidableEq, Repr

/-- The canonical record whose sorted-key JSON encoding is SHA-256-hashed by
`_generate_request_hash`.  Two fingerprints are equal exactly when this
record is equal. -/
structure RequestKey where
  taskType : String
  content : String
  complexity : ℕ
  userTier : String
  requiresVision : Bool
  userId : String
  deriving DecidableEq, Repr

/-- Embeds `AICacheManager._generate_request_hash`: content is lower-cased and
stripped before hashing. -/
def generateRequestHash (req : CacheRequest) (userId : String) : RequestKey :=
  { taskType := req.taskType.value,
    content := pyStrip (pyLower req.content),
    complexity := req.complexity,
    userTier := req.userTier,
    requiresVision := req.requiresVision,
    userId := userId }

/-- Embeds `CacheEntry` dataclass. -/
structure CacheEntry where
  requestHash : RequestKey
  response : AIResponse
  cachedAt : ℕ
  hitCount : ℕ
  costSaved : ℚ
  originalCost : ℚ
  similarityThreshold : ℚ
  cacheTtl : ℕ
  deriving DecidableEq, Repr

/-- Per-task cache configuration.  The source keeps a `cache_config` dict
and reads each field with `config.get(field, default)`; the dict defaults
(7-day TTL, 0.85 threshold, fuzzy off) are folded into this total
function. -/
structure CacheConfig where
  ttl : ℕ
  similarityThreshold : ℚ
  enableFuzzyMatching : Bool
  deriving DecidableEq, Repr

/-- Embeds `AICacheManager.cache_config` with the `default_ttl` /
`similarity_threshold` fallbacks. -/
def cacheConfig : TaskType → CacheConfig
  | .componentGeneration =>
      { ttl := 3600*24*30, similarityThreshold := 9/10, enableFuzzyMatching := true }
  | .contentWriting =>
      { ttl := 3600*24*7, similarityThreshold := 8/10, enableFuzzyMatching := true }
  | .codeGeneration =>
      { ttl := 3600*24*14, similarityThreshold := 19/20, enableFuzzyMatching := false }
  | .analysis =>
      { ttl := 3600*24*3, similarityThreshold := 3/4, enableFuzzyMatching := true }
  | _ => { ttl := 3600*24*7, similarityThreshold := 17/20, enableFuzzyMatching := false }

/-- Token set of a content string: `content.lower().split()` viewed as a
set (first occurrences kept). -/
def contentTokens (s : String) : List String :=
  (pySplitWs (pyLower s)).dedup

/-- Embeds `AICacheManager._calculate_content_similarity`: Jaccard similarity of
the lowercase whitespace-tokenised contents. -/
def calculateContentSimilarity (content1 content2 : String) : ℚ :=
  let c1 := contentTokens content1
  let c2 := contentTokens content2
  let intersectionSize := (c1.filter (fun t => decide (t ∈ c2))).length
  let unionSize := (c1 ++ c2).dedup.length
  if unionSize = 0 then 0 else (intersectionSize : ℚ) / (unionSize : ℚ)

/-- A value stored under an `ai_cache:<hash>` key: the serialised entry
plus the TTL the key was last `setex`-ed with.  The two drift apart under
hit recording (only the key TTL is rewritten, never the entry's
`cache_ttl` field). -/
structure StoredEntry where
  entry : CacheEntry
  redisTtl : ℕ
  deriving DecidableEq, Repr

/-- The metadata sidecar written by `_store_request_metadata`. -/
structure RequestMeta where
  taskType : String
  complexity : ℕ
  userId : String
  contentLength : ℕ
  requiresVision : Bool
  createdAt : ℕ
  deriving DecidableEq, Repr

/-- The counters in the `ai_cache_stats:global` hash that the cache paths
touch (`hincrbyfloat`). -/
structure CacheStatsState where
  totalRequests : ℕ := 0
  cacheHits : ℕ := 0
  cacheMisses : ℕ := 0
  totalCostSaved : ℚ := 0
  avgResponseTime : ℚ := 0
  deriving DecidableEq, Repr

/-- The key-value store as the cache manager sees it: the `ai_cache:<hash>`
entries, the `ai_cache:meta:<hash>` sidecars, and the global stats hash. -/
structure CacheState where
  entries : List (RequestKey × StoredEntry) := []
  meta : List (RequestKey × RequestMeta) := []
  stats : CacheStatsState := {}
  deriving DecidableEq, Repr

/-- Association-list read (redis `get`). -/
def assocFind {α : Type} (l : List (RequestKey × α)) (k : RequestKey) : Option α :=
  match l with
  | [] => none
  | (k2, v) :: rest => if k2 = k then some v else assocFind rest k

/-- Association-list write (redis `setex`): overwrite in place, or append. -/
def assocSet {α : Type} (l : List (RequestKey × α)) (k : RequestKey) (v : α) :
    List (RequestKey × α) :=
  match l with
  | [] => [(k, v)]
  | (k2, v2) :: rest => if k2 = k then (k, v) :: rest else (k2, v2) :: assocSet rest k v

/-- Association-list delete (redis `delete`). -/
def assocErase {α : Type} (l : List (RequestKey × α)) (k : RequestKey) :
    List (RequestKey × α) :=
  match l with
  | [] => []
  | (k2, v2) :: rest => if k2 = k then rest else (k2, v2) :: assocErase rest k

/-- Embeds `AICacheManager._is_entry_expired`: expired iff `now` is strictly past
`cached_at + cache_ttl`. -/
def isEntryExpired (entry : CacheEntry) (now : ℕ) : Bool :=
  now > entry.cachedAt + entry.cacheTtl

/-- The entry rewrite inside `_record_cache_hit`: bump `hit_count` and
`cost_saved`, and `setex` the key with `min(cache_ttl * 2, 86400*30)` —
the serialised entry keeps its ORIGINAL `cache_ttl` field. -/
def recordCacheHitEntry (s : StoredEntry) (costSaved : ℚ) : StoredEntry :=
  let entry := { s.entry with
    hitCount := s.entry.hitCount + 1,
    costSaved := s.entry.costSaved + costSaved }
  { entry := entry, redisTtl := min (entry.cacheTtl * 2) (86400 * 30) }

/-- Embeds `AICacheManager._record_cache_hit`: bump the global hit counters and,
when the key is still present, rewrite the entry.  `total_requests` and
`cache_misses` are not touched. -/
def recordCacheHit (σ : CacheState) (key : RequestKey) (costSaved : ℚ) : CacheState :=
  let stats := { σ.stats with
    cacheHits := σ.stats.cacheHits + 1,
    totalCostSaved := σ.stats.totalCostSaved + costSaved }
  let entries :=
    match assocFind σ.entries key with
    | some s => assocSet σ.entries key (recordCacheHitEntry s costSaved)
    | none => σ.entries
  { σ with stats := stats, entries := entries }

/-- Embeds `AICacheManager._record_cache_miss`: bump `cache_misses` AND
`total_requests`. -/
def recordCacheMiss (σ : CacheState) : CacheState :=
  { σ with stats := { σ.stats with
      cacheMisses := σ.stats.cacheMisses + 1,
      totalRequests := σ.stats.totalRequests + 1 } }

/-- Embeds `AICacheManager._get_exact_match`: return the stored response if the
key exists and is unexpired; delete the key when expired. -/
def getExactMatch (entries : List (RequestKey × StoredEntry)) (key : RequestKey)
    (now : ℕ) : Option AIResponse × List (RequestKey × StoredEntry) :=
  match assocFind entries key with
  | some s =>
      if isEntryExpired s.entry now then (none, assocErase entries key)
      else (some s.entry.response, entries)
  | none => (none, entries)

/-- Embeds `AICacheManager._get_fuzzy_match`: scan every entry under the prefix in
keyspace order, skip expired ones, and keep the best response whose
similarity — computed against `entry.response.content`, the stored
RESPONSE text — strictly exceeds both the task threshold and the best so
far.  (Metadata sidecar keys also match the scanned prefix but fail to
deserialize as entries and are skipped by the `except: continue`.) -/
def getFuzzyMatch (entries : List (RequestKey × StoredEntry)) (now : ℕ)
    (req : CacheRequest) : Option AIResponse :=
  let threshold := (cacheConfig req.taskType).similarityThreshold
  let result := entries.foldl
    (fun (acc : Option AIResponse × ℚ) kv =>
      let entry := kv.2.entry
      if isEntryExpired entry now then acc
      else
        let similarity := calculateContentSimilarity req.content entry.response.content
        if similarity > threshold ∧ similarity > acc.2 then (some entry.response, similarity)
        else acc)
    (none, 0)
  result.1

/-- Embeds `AICacheManager.get_cached_response`: exact match first (recording a
hit), then fuzzy if enabled for the task type (recording a hit under the
NEW request's hash), else record a miss. -/
def getCachedResponse (σ : CacheState) (now : ℕ) (req : CacheRequest)
    (userId : String) : Option AIResponse × CacheState :=
  let requestHash := generateRequestHash req userId
  match getExactMatch σ.entries requestHash now with
  | (some resp, entries1) =>
      (some resp, recordCacheHit { σ with entries := entries1 } requestHash resp.cost)
  | (none, entries1) =>
      let σ1 := { σ with entries := entries1 }
      if (cacheConfig req.taskType).enableFuzzyMatching then
        match getFuzzyMatch σ1.entries now req with
        | some resp => (some resp, recordCacheHit σ1 requestHash resp.cost)
        | none => (none, recordCacheMiss σ1)
      else (none, recordCacheMiss σ1)

/-- Embeds `AICacheManager.cache_response`: build the entry (hit count 0, nothing
saved yet, original cost = response cost), `setex` it with the per-task
TTL, and write the metadata sidecar. -/
def cacheResponse (σ : CacheState) (now : ℕ) (req : CacheRequest)
    (resp : AIResponse) (userId : String) : CacheState :=
  let requestHash := generateRequestHash req userId
  let config := cacheConfig req.taskType
  let cacheEntry : CacheEntry :=
    { requestHash := requestHash, response := resp, cachedAt := now,
      hitCount := 0, costSaved := 0, originalCost := resp.cost,
      similarityThreshold := config.similarityThreshold, cacheTtl := config.ttl }
  let metaRecord : RequestMeta :=
    { taskType := req.taskType.value, complexity := req.complexity, userId := userId,
      contentLength := req.content.length, requiresVision := req.requiresVision,
      createdAt := now }
  { σ with
    entries := assocSet σ.entries requestHash { entry := cacheEntry, redisTtl := config.ttl },
    meta := assocSet σ.meta requestHash metaRecord }

/-- Embeds `AICacheManager._entry_matches_user`: the source always returns `True`
(the entry does not store a user id). -/
def entryMatchesUser (_entry : CacheEntry) (_userId : String) : Bool := true

/-- Embeds `AICacheManager._entry_matches_task_type`: the source always returns
`True` (the entry does not store a task type). -/
def entryMatchesTaskType (_entry : CacheEntry) (_taskType : TaskType) : Bool := true

/-- Embeds `AICacheManager.invalidate_cache`: iterate every key under the
`ai_cache:` prefix — which includes the `ai_cache:meta:` sidecars.  An
entry that deserializes is kept only if a supplied filter rejects it
(which never happens, the match helpers being constant `True`); sidecars
fail to deserialize as entries and are deleted as corrupt.  Returns the
number of keys deleted together with the surviving keyspace. -/
def invalidateCache (σ : CacheState) (userId : Option String)
    (taskType : Option TaskType) : ℕ × CacheState :=
  let step := fun (acc : ℕ × List (RequestKey × StoredEntry)) (kv : RequestKey × StoredEntry) =>
    let keep :=
      (match userId with
       | some uid => !(entryMatchesUser kv.2.entry uid)
       | none => false) ||
      (match taskType with
       | some tt => !(entryMatchesTaskType kv.2.entry tt)
       | none => false)
    if keep then (acc.1, acc.2 ++ [kv]) else (acc.1 + 1, acc.2)
  let folded := σ.entries.foldl step (0, [])
  let metaDeleted := σ.meta.length
  (folded.1 + metaDeleted, { σ with entries := folded.2, meta := [] })

/-- Round-half-even of a rational to an integer (CPython `round` on the
exact value). -/
def roundHalfEven (q : ℚ) : ℤ :=
  let f := ⌊q⌋
  let r := q - f
  if r < 1/2 then f
  else if r > 1/2 then f + 1
  else if Even f then f else f + 1

/-- Python `round(q, ndigits)` modelled exactly over ℚ. -/
def pyRound (q : ℚ) (ndigits : ℕ) : ℚ :=
  let m : ℚ := (10 : ℚ) ^ ndigits
  (roundHalfEven (q * m) : ℚ) / m

/-- Embeds `CacheStats` dataclass as produced by `get_cache_stats`. -/
structure CacheStats where
  totalRequests : ℕ
  cacheHits : ℕ
  cacheMisses : ℕ
  hitRate : ℚ
  totalCostSaved : ℚ
  avgResponseTime : ℚ
  storageUsageMb : ℚ
  deriving DecidableEq, Repr

/-- Embeds `AICacheManager.get_cache_stats`: report the counters, with
`hit_rate = cache_hits / total_requests · 100` when any request was
counted.  Storage usage comes from the external store's per-key memory
accounting and is taken as a parameter. -/
def getCacheStats (s : CacheStatsState) (storageUsage : ℚ) : CacheStats :=
  let hitRate : ℚ :=
    if s.totalRequests > 0 then (s.cacheHits : ℚ) / (s.totalRequests : ℚ) * 100 else 0
  { totalRequests := s.totalRequests, cacheHits := s.cacheHits,
    cacheMisses := s.cacheMisses, hitRate := pyRound hitRate 2,
    totalCostSaved := pyRound s.totalCostSaved 4,
    avgResponseTime := pyRound s.avgResponseTime 3,
    storageUsageMb := pyRound storageUsage 2 }

/-- A sequence of cache lookups through `get_cached_response`, threading
the cache state and recording each outcome (`true` = hit). -/
def processLookups (σ : CacheState) (now : ℕ) :
    List (CacheRequest × String) → CacheState × List Bool
  | [] => (σ, [])
  | (req, uid) :: rest =>
      let step := getCachedResponse σ now req uid
      let tail := processLookups step.2 now rest
      (tail.1, step.1.isSome :: tail.2)

/-! ## Cost tracker (ai/cost_tracker.py) -/

/-- Embeds `CostTracker.subscription_limits`, read as
`subscription_limits.get(tier.lower(), subscription_limits['free'])`. -/
def subscriptionLimit (tier : String) : ℚ :=
  let t := pyLower tier
  if t = "free" then 1
  else if t = "creator" then 882/100
  else if t = "business" then 2384/100
  else if t = "agency" then 13167/100
  else 1

/-- The fields of `BudgetStatus` that `check_request_budget` consumes.
`days_remaining` and the projection depend on the calendar and the
trailing-seven-day query and are not needed here. -/
structure BudgetStatusCore where
  monthlyLimit : ℚ
  currentUsage : ℚ
  remainingBudget : ℚ
  percentageUsed : ℚ
  deriving DecidableEq, Repr

/-- The budget-relevant part of `CostTracker.get_budget_status`:
`current_usage` is the sum of this month's usage-record costs (the SQL
`sum` in `_get_monthly_usage`, passed here as the list of costs). -/
def getBudgetStatusCore (tier : String) (monthlyCosts : List ℚ) : BudgetStatusCore :=
  let monthlyLimit := subscriptionLimit tier
  let currentUsage := monthlyCosts.sum
  { monthlyLimit := monthlyLimit,
    currentUsage := currentUsage,
    remainingBudget := max 0 (monthlyLimit - currentUsage),
    percentageUsed := if monthlyLimit > 0 then currentUsage / monthlyLimit * 100 else 0 }

/-- The dict returned by `CostTracker.check_request_budget`. -/
structure BudgetCheck where
  canProceed : Bool
  currentUsage : ℚ
  monthlyLimit : ℚ
  remainingBudget : ℚ
  estimatedCost : ℚ
  afterRequestUsage : ℚ
  remainingRequestsAtThisCost : ℤ
  percentageUsed : ℚ
  wouldExceed : Bool
  deriving DecidableEq, Repr

/-- Embeds `CostTracker.check_request_budget`. -/
def checkRequestBudget (tier : String) (monthlyCosts : List ℚ)
    (estimatedCost : ℚ) : BudgetCheck :=
  let bs := getBudgetStatusCore tier monthlyCosts
  let wouldExceed := decide (bs.currentUsage + estimatedCost > bs.monthlyLimit)
  let remainingRequests : ℤ :=
    if estimatedCost > 0 then ⌊bs.remainingBudget / estimatedCost⌋ else 0
  { canProceed := !wouldExceed,
    currentUsage := bs.currentUsage,
    monthlyLimit := bs.monthlyLimit,
    remainingBudget := bs.remainingBudget,
    estimatedCost := estimatedCost,
    afterRequestUsage := bs.currentUsage + estimatedCost,
    remainingRequestsAtThisCost := remainingRequests,
    percentageUsed := bs.percentageUsed,
    wouldExceed := wouldExceed }

/-! ## DeepSeek client (ai/clients/deepseek.py) -/

/-- The distinct failure shapes raised as `DeepSeekError` by
`DeepSeekClient.generate_completion` (the source uses one exception class;
the message distinguishes these cases, and the 429 message carries the
`Retry-After` value). -/
inductive DeepSeekErr where
  | rateLimited (retryAfter : ℕ)
  | invalidApiKey
  | badRequest (message : String)
  | apiError (status : ℕ) (body : String)
  | networkError (message : String)
  | timedOut
  deriving DecidableEq, Repr

/-- The outcome of the underlying HTTP POST: a status with headers and
body, an `aiohttp.ClientError`, or an `asyncio.TimeoutError`. -/
inductive HttpResult where
  | status (code : ℕ) (retryAfter : Option ℕ) (parsedResponse : AIResponse) (errorText : String)
  | clientFailure (message : String)
  | connectionTimedOut
  deriving DecidableEq, Repr

/-- The error dispatch of `DeepSeekClient.generate_completion` (lines
85–117): 200 parses, 429 raises rate-limited with
`headers.get('Retry-After', 60)`, 401 invalid key, 400 bad request,
anything else an API error; `aiohttp.ClientError` becomes a network
error and `asyncio.TimeoutError` a timeout. -/
def generateCompletionResult : HttpResult → Except DeepSeekErr AIResponse
  | .status code retryAfter parsed errorText =>
      if code = 200 then .ok parsed
      else if code = 429 then .error (.rateLimited (retryAfter.getD 60))
      else if code = 401 then .error .invalidApiKey
      else if code = 400 then .error (.badRequest errorText)
      else .error (.apiError code errorText)
  | .clientFailure msg => .error (.networkError msg)
  | .connectionTimedOut => .error .timedOut

/-! ## Pipeline (ai/service.py) -/

/-- Embeds `processing_times` table in `AIService._process_mock_response`. -/
def processingTimes : ModelType → ℚ
  | .deepseekV3 => 2
  | .geminiFlash => 3/2
  | .geminiPro => 3
  | .claudeSonnet => 4
  | .gpt4Turbo => 5
  | .gpt4Vision => 6

/-- Embeds `AIService._generate_mock_content` (literal braces written with
escapes). -/
def generateMockContent (taskType : String) (inputContent : String) : String :=
  if taskType = "code_generation" then
    "// Generated React component based on: " ++ pyTake inputContent 50 ++
      "...\nexport const Component = () => \x7b return <div>Generated content</div>; \x7d;"
  else if taskType = "content_writing" then
    "Here's compelling content based on your request: " ++ pyTake inputContent 50 ++
      "...\n\nThis is professionally written content that addresses your needs."
  else if taskType = "analysis" then
    "Analysis of: " ++ pyTake inputContent 50 ++
      "...\n\nKey findings:\n1. Primary insight\n2. Secondary observation\n3. Recommendation"
  else if taskType = "component_generation" then
    "import React from 'react';\n\n// Component generated from: " ++ pyTake inputContent 30 ++
      "...\nexport const GeneratedComponent = () => \x7b\n  return (\n    <div className=\"generated-component\">\n      <h1>Generated Component</h1>\n    </div>\n  );\n\x7d;"
  else if taskType = "campaign_analysis" then
    "Campaign Analysis Report\n\nBased on: " ++ pyTake inputContent 50 ++
      "...\n\nPerformance Score: 75/100\nRecommendations:\n- Improve headline\n- Optimize call-to-action\n- Enhance visual design"
  else
    "Generated response for " ++ taskType ++ ": " ++ pyTake inputContent 100 ++ "..."

/-- Embeds `AIService._process_mock_response`: token estimates from the word
count, real catalogue cost, canned content, quality 0.85. -/
def mockResponse (model : ModelType) (req : AIRequest) : AIResponse :=
  let inputTokens : ℚ := (wordCount req.content : ℚ) * (13/10)
  let outputTokens : ℚ := inputTokens * (3/2)
  let cost := (MODEL_COSTS model).calculateCost ⌊inputTokens⌋ ⌊outputTokens⌋
    (if req.requiresVision then 1 else 0)
  { content := generateMockContent req.taskType req.content,
    modelUsed := model,
    inputTokens := ⌊inputTokens⌋,
    outputTokens := ⌊outputTokens⌋,
    cost := cost,
    qualityScore := some (17/20),
    processingTime := some (processingTimes model) }

/-- Embeds `AIService._process_with_model` (lines 184–208): the provider client is
invoked inside `try/except Exception`, and ANY client failure — rate
limit, bad credentials, bad request, network, timeout — is swallowed and
replaced by `_process_mock_response(model, request)`.  The function
therefore always returns normally; the `Except` result records that no
provider error can propagate out of it. -/
def processWithModelE (model : ModelType) (req : AIRequest)
    (clientResult : Except DeepSeekErr AIResponse) : Except DeepSeekErr AIResponse :=
  .ok (match clientResult with
       | .ok resp => resp
       | .error _ => mockResponse model req)

/-- The single error `process_request` raises on the budget path (the
`ValueError` at service.py:80, whose message carries the needed and the
remaining amount). -/
inductive ServiceError where
  | insufficientBudget (need available : ℚ)
  deriving DecidableEq, Repr

/-- The constrained request built by `AIService._select_cheaper_model`:
complexity reduced by one with floor 1, `max_cost` set to the budget cap,
`context_length` not forwarded. -/
def constrainRequest (req : AIRequest) (maxCost : ℚ) : AIRequest :=
  { taskType := req.taskType,
    complexity := max 1 (req.complexity - 1),
    content := req.content,
    userTier := req.userTier,
    maxCost := some maxCost,
    requiresVision := req.requiresVision,
    contextLength := none }

/-- Embeds `AIService._select_cheaper_model`: re-select with the constrained
request; succeed only if the new estimate fits under the cap. -/
def selectCheaperModel (st : RouterState) (req : AIRequest) (maxCost : ℚ) :
    Option ModelSelection :=
  let selection := selectModel st (constrainRequest req maxCost)
  if selection.estimatedCost ≤ maxCost then some selection else none

/-- The budget-validation phase of `AIService.process_request` (lines
72–83): keep the primary selection when the check passes; otherwise try
`_select_cheaper_model` with `max_cost = remaining_budget` and fail with
the insufficient-budget error when even that does not fit. -/
def processBudgetPhase (st : RouterState) (req : AIRequest)
    (primary : ModelSelection) (check : BudgetCheck) :
    Except ServiceError ModelSelection :=
  if check.canProceed then .ok primary
  else
    match selectCheaperModel st req check.remainingBudget with
    | some cheaper => .ok cheaper
    | none => .error (.insufficientBudget primary.estimatedCost check.remainingBudget)

/-- The cache-store step of `AIService.process_request` (lines 110–112):
store only when `response.quality_score and response.quality_score > 0.7`
(Python truthiness: `None` and `0.0` both fail the first conjunct). -/
def serviceCacheStore (σ : CacheState) (now : ℕ) (req : CacheRequest)
    (resp : AIResponse) (userId : String) : CacheState :=
  match resp.qualityScore with
  | some q => if q ≠ 0 ∧ q > 7/10 then cacheResponse σ now req resp userId else σ
  | none => σ

/-! ## Spec-side definitions used for refinement comparisons -/

/-- Modelled from the spec sentence "Historical performance (20%):
`100 · (0.4·success_rate + 0.4·avg_quality + 0.2·min(cost_efficiency,2))`"
(capped at 100), for comparison with the source's
`calculatePerformanceScore`. -/
def specPerformanceScore (m : PerfMetrics) : ℚ :=
  min 100 (100 * (2/5 * m.successRate + 2/5 * m.avgQuality + 1/5 * min m.costEfficiency 2))

/-! ## Concrete fixtures shared by the theorems below -/

/-- A small concrete request for the provider-error theorems. -/
def fixtureReq : AIRequest :=
  { taskType := "code_generation", complexity := 5,
    content := "Create a React button component", userTier := "free" }

/-- A stored response fixture whose generated text shares no token with any
request content used below. -/
def fixtureResp : AIResponse :=
  { content := "GENERATED-COMPONENT-CODE", modelUsed := .deepseekV3,
    inputTokens := 10, outputTokens := 20, cost := 1/100, qualityScore := some (4/5) }

/-- Fingerprint of a cache entry owned by user `alice`. -/
def aliceKey : RequestKey :=
  { taskType := "analysis", content := "hello", complexity := 2,
    userTier := "free", requiresVision := false, userId := "alice" }

/-- The serialised payload of `alice`'s cache entry (7-day TTL). -/
def aliceEntry : CacheEntry :=
  { requestHash := aliceKey, response := fixtureResp, cachedAt := 0,
    hitCount := 0, costSaved := 0, originalCost := 1/100,
    similarityThreshold := 3/4, cacheTtl := 604800 }

/-- A stored cache entry owned by `alice` (7-day TTL). -/
def aliceStored : StoredEntry :=
  { entry := aliceEntry, redisTtl := 604800 }

/-- A cache keyspace holding exactly `alice`'s entry. -/
def aliceStore : CacheState := { entries := [(aliceKey, aliceStored)] }

/-- A stored entry with the 7-day TTL. -/
def stored7 : StoredEntry := aliceStored

/-- A stored entry with a 20-day TTL. -/
def stored20 : StoredEntry :=
  { entry := { aliceEntry with cacheTtl := 86400 * 20 }, redisTtl := 86400 * 20 }

/-! ## C1 -/

/-- C1 counterexample: when the DeepSeek client reports HTTP 429 with
`Retry-After: 60`, `generate_completion` raises the rate-limit error, but
`_process_with_model` swallows it and returns the mock response — the
caller of `process_request` receives a success, not the propagated
rate-limit error the claim promises. -/
theorem c1_counterexample :
    generateCompletionResult (HttpResult.status 429 (some 60) fixtureResp "") =
      Except.error (DeepSeekErr.rateLimited 60) ∧
    processWithModelE ModelType.deepseekV3 fixtureReq
        (generateCompletionResult (HttpResult.status 429 (some 60) fixtureResp "")) =
      Except.ok (mockResponse ModelType.deepseekV3 fixtureReq) ∧
    processWithModelE ModelType.deepseekV3 fixtureReq
        (generateCompletionResult (HttpResult.status 429 (some 60) fixtureResp "")) ≠
      Except.error (DeepSeekErr.rateLimited 60) := by
  refine ⟨rfl, rfl, ?_⟩
  intro h
  exact Except.noConfusion h

/-- C1 (amended): `_process_with_model` catches every provider-client
failure — rate-limit, invalid-credentials, bad-request, network and
timeout alike — and returns the mock response for the selected model
instead of propagating the error; successful client responses are passed
through unchanged.  No provider error reaches the caller of
`process_request` from this layer. -/
theorem c1_provider_error_swallowed (model : ModelType) (req : AIRequest)
    (e : DeepSeekErr) (resp : AIResponse) :
    processWithModelE model req (Except.error e) =
      Except.ok (mockResponse model req) ∧
    processWithModelE model req (Except.ok resp) = Except.ok resp := by
  exact ⟨rfl, rfl⟩

/-! ## C3 -/

/-- C3: the load-balancing factor at the failing inputs.  The source's
`if usage_count > 20 / elif > 30 / elif > 40` chain makes the 0.8 and 0.7
branches unreachable: a model used 35 times among the last 100 selections
gets factor 0.9 (the claim says 0.8), and one used 45 times also gets 0.9
(the claim says 0.7); 21 uses already give 0.9 and 20 give 1.0. -/
theorem c3_load_factor_at_failing_input :
    getLoadBalancingFactor (List.replicate 35 "deepseek-v3") ModelType.deepseekV3 = 9/10 ∧
    getLoadBalancingFactor (List.replicate 45 "deepseek-v3") ModelType.deepseekV3 = 9/10 ∧
    getLoadBalancingFactor (List.replicate 21 "deepseek-v3") ModelType.deepseekV3 = 9/10 ∧
    getLoadBalancingFactor (List.replicate 20 "deepseek-v3") ModelType.deepseekV3 = 1 ∧
    ((9:ℚ)/10 ≠ 8/10) ∧ ((9:ℚ)/10 ≠ 7/10) := by
  refine ⟨rfl, rfl, rfl, rfl, by norm_num, by norm_num⟩

/-! ## C8 -/

/-- C8 counterexample: with the default metrics (success 0.95, quality
0.8, efficiency 1.0) the source's historical-performance component is 100
— the inner sum 80 is multiplied by 100 again before the cap — while the
claimed formula yields 90. -/
theorem c8_counterexample :
    calculatePerformanceScore initialMetrics = 100 ∧
    specPerformanceScore initialMetrics = 90 ∧
    calculatePerformanceScore initialMetrics ≠ specPerformanceScore initialMetrics := by
  refine ⟨?_, ?_, ?_⟩
  · norm_num [calculatePerformanceScore, initialMetrics, min_def]
  · norm_num [specPerformanceScore, initialMetrics, min_def]
  · norm_num [calculatePerformanceScore, specPerformanceScore, initialMetrics, min_def]

/-- C8 (amended): the historical-performance component equals
`min(100, (40·success_rate + 40·avg_quality + 10·min(cost_efficiency,2)) · 100)`
— the inner sum is already on the 0–100 scale and is multiplied by 100
again before capping — so the component saturates at 100 whenever that
inner sum is at least 1; in particular it is 100, not 90, at the default
metrics. -/
theorem c8_performance_score_saturates (m : PerfMetrics)
    (h : 1 ≤ m.successRate * 40 + m.avgQuality * 40 + min m.costEfficiency 2 * 10) :
    calculatePerformanceScore m = 100 := by
  have h100 : (100:ℚ) ≤ (m.successRate * 40 + m.avgQuality * 40 + min m.costEfficiency 2 * 10) * 100 := by
    nlinarith
  simp only [calculatePerformanceScore]
  exact min_eq_left h100

/-- C8 witness: the saturation hypothesis holds at the default metrics,
where the component evaluates to 100. -/
theorem c8_witness :
    (1 ≤ initialMetrics.successRate * 40 + initialMetrics.avgQuality * 40 +
        min initialMetrics.costEfficiency 2 * 10) ∧
    calculatePerformanceScore initialMetrics = 100 := by
  have h : (1:ℚ) ≤ initialMetrics.successRate * 40 + initialMetrics.avgQuality * 40 +
      min initialMetrics.costEfficiency 2 * 10 := by
    norm_num [initialMetrics, min_def]
  exact ⟨h, c8_performance_score_saturates initialMetrics h⟩

/-! ## C9 -/

/-- C9: `invalidate_cache` at the failing input.  The keyspace holds one
entry, owned by `alice`; invalidating with `user_id = "bob"` nevertheless
deletes it and reports one deletion, because `_entry_matches_user` (and
`_entry_matches_task_type`) always return `True` — the claimed user/task
scoping does not happen. -/
theorem c9_invalidate_ignores_filters :
    (invalidateCache aliceStore (some "bob") none).1 = 1 ∧
    (invalidateCache aliceStore (some "bob") none).2.entries = [] ∧
    aliceKey.userId ≠ "bob" ∧
    (invalidateCache aliceStore none (some TaskType.contentWriting)).1 = 1 ∧
    aliceKey.taskType ≠ (TaskType.contentWriting).value := by
  refine ⟨rfl, rfl, by decide, rfl, by decide⟩

/-! ## C6 -/

/-- C6: `check_request_budget` returns
`can_proceed = (current_usage + estimated_cost ≤ monthly_limit)` for every
tier and usage history; in particular, on the free tier (limit $1.00)
with usage $0.99 an estimate of $0.02 is rejected and an estimate of
$0.005 is accepted. -/
theorem c6_check_request_budget (tier : String) (monthlyCosts : List ℚ) (est : ℚ) :
    (checkRequestBudget tier monthlyCosts est).canProceed =
      decide (monthlyCosts.sum + est ≤ subscriptionLimit tier) ∧
    (checkRequestBudget "free" [99/100] (2/100)).canProceed = false ∧
    (checkRequestBudget "free" [99/100] (5/1000)).canProceed = true := by
  have hfree : subscriptionLimit "free" = 1 := rfl
  refine ⟨?_, ?_, ?_⟩
  · simp only [checkRequestBudget, getBudgetStatusCore]
    rw [show ∀ b : Bool, (!b) = b.not from fun _ => rfl]
    simp only [← decide_not, decide_eq_decide, not_lt]
  · simp only [checkRequestBudget, getBudgetStatusCore, hfree, Bool.not_eq_true']
    simp only [List.sum_cons, List.sum_nil]
    norm_num
  · simp only [checkRequestBudget, getBudgetStatusCore, hfree, Bool.not_eq_true']
    simp only [List.sum_cons, List.sum_nil]
    norm_num

/-! ## C4 -/

/-- C4 counterexample: two successive hits on an entry stored with a 7-day
TTL leave the key TTL at 14 days, not the 28 days the claim asserts,
because the serialised `cache_ttl` field is never updated by hit
recording. -/
theorem c4_counterexample :
    (recordCacheHitEntry (recordCacheHitEntry stored7 (1/100)) (1/100)).redisTtl = 1209600 ∧
    (1209600 : ℕ) ≠ 2419200 := by
  exact ⟨rfl, by decide⟩

/-- C4 (amended): a recorded hit increments `hit_count`, adds the entry's
original cost to `cost_saved`, and rewrites the key TTL to
`min(2·cache_ttl, 30 days)` — but the stored `cache_ttl` field itself is
never updated, so every hit doubles the ORIGINAL TTL: one hit takes a
7-day entry to 14 days and clamps a 20-day entry to 30 days, while a
second hit on the 7-day entry sets 14 days again (not 28). -/
theorem c4_hit_recording (s : StoredEntry) (c : ℚ)
    (horig : c = s.entry.originalCost) :
    (recordCacheHitEntry s c).entry.hitCount = s.entry.hitCount + 1 ∧
    (recordCacheHitEntry s c).entry.costSaved = s.entry.costSaved + s.entry.originalCost ∧
    (recordCacheHitEntry s c).redisTtl = min (s.entry.cacheTtl * 2) (86400 * 30) ∧
    (recordCacheHitEntry s c).entry.cacheTtl = s.entry.cacheTtl ∧
    (recordCacheHitEntry (recordCacheHitEntry s c) c).redisTtl
      = min (s.entry.cacheTtl * 2) (86400 * 30) ∧
    (recordCacheHitEntry stored7 (1/100)).redisTtl = 1209600 ∧
    (recordCacheHitEntry stored20 (1/100)).redisTtl = 2592000 ∧
    (recordCacheHitEntry (recordCacheHitEntry stored7 (1/100)) (1/100)).redisTtl = 1209600 := by
  subst horig
  refine ⟨rfl, rfl, rfl, rfl, rfl, rfl, rfl, rfl⟩

/-- C4 witness: the amended hit-recording facts instantiated on the
concrete 7-day entry, whose hit cost equals its original cost. -/
theorem c4_witness :
    ((1:ℚ)/100 = stored7.entry.originalCost) ∧
    (recordCacheHitEntry stored7 (1/100)).entry.hitCount = stored7.entry.hitCount + 1 ∧
    (recordCacheHitEntry stored7 (1/100)).redisTtl
      = min (stored7.entry.cacheTtl * 2) (86400 * 30) := by
  exact ⟨rfl, (c4_hit_recording stored7 (1/100) rfl).1,
    (c4_hit_recording stored7 (1/100) rfl).2.2.1⟩

/-! ## Shared cache helper lemmas -/

/-- Reading back the key just written returns the written value. -/
theorem assocFind_set_self {α : Type} (l : List (RequestKey × α)) (k : RequestKey)
    (v : α) : assocFind (assocSet l k v) k = some v := by
  induction l with
  | nil => simp [assocSet, assocFind]
  | cons kv rest ih =>
      obtain ⟨k2, v2⟩ := kv
      by_cases h : k2 = k
      · simp [assocSet, assocFind, h]
      · simp [assocSet, assocFind, h, ih]

/-- An exact lookup immediately after writing an unexpired entry returns
its response. -/
theorem getExactMatch_fresh (entries : List (RequestKey × StoredEntry))
    (k : RequestKey) (s : StoredEntry) (now : ℕ)
    (h : isEntryExpired s.entry now = false) :
    getExactMatch (assocSet entries k s) k now
      = (some s.entry.response, assocSet entries k s) := by
  unfold getExactMatch
  rw [assocFind_set_self]
  simp [h]

/-- A fuzzy scan over a single entry whose similarity does not beat the
threshold returns nothing. -/
theorem getFuzzyMatch_singleton_miss (kv : RequestKey × StoredEntry) (now : ℕ)
    (req : CacheRequest)
    (hsim : ¬ (calculateContentSimilarity req.content kv.2.entry.response.content
        > (cacheConfig req.taskType).similarityThreshold)) :
    getFuzzyMatch [kv] now req = none := by
  unfold getFuzzyMatch
  simp only [List.foldl]
  by_cases hexp : isEntryExpired kv.2.entry now
  · simp [hexp]
  · simp only [hexp, Bool.false_eq_true, if_false]
    rw [if_neg (fun h => hsim h.1)]

/-! ## C2 -/

/-- The request whose response is cached in the C2 scenario. -/
def c2StoredReq : CacheRequest :=
  { taskType := .componentGeneration, complexity := 3,
    content := "create a blue submit button with rounded corners and hover effects",
    userTier := "free" }

/-- A near-duplicate incoming request: one extra word, so the exact
fingerprint misses while the request-content Jaccard similarity is 11/12,
above the 0.90 component-generation threshold. -/
def c2IncomingReq : CacheRequest :=
  { taskType := .componentGeneration, complexity := 3,
    content := "create a blue submit button with rounded corners and hover effects now",
    userTier := "free" }

/-- The cache after storing the response for `c2StoredReq`. -/
def c2State : CacheState := cacheResponse {} 0 c2StoredReq fixtureResp "u1"

/-- C2: the fuzzy lookup at the failing input.  The stored entry's request
content is 11/12-similar to the incoming content (≥ the 0.90 threshold),
so the claim says the lookup returns the entry — but the source computes
similarity against the stored RESPONSE text (`entry.response.content`),
which shares no token with the request, so the lookup misses. -/
theorem c2_fuzzy_compares_response_content :
    (getCachedResponse c2State 0 c2IncomingReq "u1").1 = none ∧
    calculateContentSimilarity c2IncomingReq.content c2StoredReq.content = 11/12 ∧
    (cacheConfig c2IncomingReq.taskType).enableFuzzyMatching = true ∧
    (11:ℚ)/12 ≥ (cacheConfig c2IncomingReq.taskType).similarityThreshold ∧
    calculateContentSimilarity c2IncomingReq.content fixtureResp.content = 0 := by
  have hthr : (cacheConfig c2IncomingReq.taskType).similarityThreshold = 9/10 := rfl
  have hsim0 : calculateContentSimilarity c2IncomingReq.content fixtureResp.content
      = ((0:ℕ):ℚ)/((13:ℕ):ℚ) := rfl
  have hsim0q : calculateContentSimilarity c2IncomingReq.content fixtureResp.content = 0 := by
    rw [hsim0]; norm_num
  have hnone : (getCachedResponse c2State 0 c2IncomingReq "u1").1 = none := by
    have hfind : assocFind c2State.entries (generateRequestHash c2IncomingReq "u1")
        = none := rfl
    have hex : getExactMatch c2State.entries (generateRequestHash c2IncomingReq "u1") 0
        = (none, c2State.entries) := by
      unfold getExactMatch
      rw [hfind]
    have hentries : c2State.entries
        = [(generateRequestHash c2StoredReq "u1", (c2State.entries.head (by decide)).2)] := rfl
    have hfz : getFuzzyMatch c2State.entries 0 c2IncomingReq = none := by
      rw [hentries]
      apply getFuzzyMatch_singleton_miss
      rw [hthr]
      rw [show ((c2State.entries.head (by decide)).2.entry.response.content)
          = fixtureResp.content from rfl]
      rw [hsim0q]
      norm_num
    simp only [getCachedResponse, hex, hfz]
    rw [show (cacheConfig c2IncomingReq.taskType).enableFuzzyMatching = true from rfl]
    simp
  refine ⟨hnone, rfl, rfl, ?_, hsim0q⟩
  rw [hthr]
  norm_num

/-! ## C5 -/

/-- C5: storing through the pipeline's quality gate and looking up the
same request immediately afterwards (from an empty cache) returns the
stored response exactly when its quality score exceeds 0.7, and nothing
otherwise (at or below 0.7, or with no score, the response is never
stored and the lookup misses). -/
theorem c5_store_then_lookup (req : CacheRequest) (resp : AIResponse)
    (userId : String) (now : ℕ) (q : ℚ) :
    (resp.qualityScore = some q → q > 7/10 →
      (getCachedResponse (serviceCacheStore {} now req resp userId) now req userId).1
        = some resp) ∧
    (resp.qualityScore = some q → q ≤ 7/10 →
      (getCachedResponse (serviceCacheStore {} now req resp userId) now req userId).1
        = none) ∧
    (resp.qualityScore = none →
      (getCachedResponse (serviceCacheStore {} now req resp userId) now req userId).1
        = none) := by
  have hmiss : (getCachedResponse ({} : CacheState) now req userId).1 = none := by
    rcases req with ⟨tt, cx, ct, ut, rv⟩
    cases tt <;> rfl
  refine ⟨?_, ?_, ?_⟩
  · intro hq hgt
    have hne : q ≠ 0 := ne_of_gt (lt_trans (by norm_num) hgt)
    simp only [serviceCacheStore, hq, if_pos (And.intro hne hgt)]
    simp only [getCachedResponse, cacheResponse]
    rw [getExactMatch_fresh]
    simp only [isEntryExpired, decide_eq_false_iff_not, not_lt]
    omega
  · intro hq hle
    have hcond : ¬(q ≠ 0 ∧ q > 7/10) := fun h => absurd h.2 (not_lt.mpr hle)
    simp only [serviceCacheStore, hq, if_neg hcond]
    exact hmiss
  · intro hq
    simp only [serviceCacheStore, hq]
    exact hmiss

/-- C5 witness: a concrete store-then-lookup round trip — quality 0.8
(above the floor) is returned, and the same response with quality 0.5 or
no score is not. -/
theorem c5_witness :
    (getCachedResponse (serviceCacheStore {} 0 c2StoredReq fixtureResp "u1") 0
        c2StoredReq "u1").1 = some fixtureResp ∧
    (getCachedResponse (serviceCacheStore {} 0 c2StoredReq
        { fixtureResp with qualityScore := some (1/2) } "u1") 0 c2StoredReq "u1").1
      = none ∧
    (getCachedResponse (serviceCacheStore {} 0 c2StoredReq
        { fixtureResp with qualityScore := none } "u1") 0 c2StoredReq "u1").1
      = none := by
  refine ⟨?_, ?_, ?_⟩
  · exact (c5_store_then_lookup c2StoredReq fixtureResp "u1" 0 (4/5)).1 rfl (by norm_num)
  · exact (c5_store_then_lookup c2StoredReq
      { fixtureResp with qualityScore := some (1/2) } "u1" 0 (1/2)).2.1 rfl (by norm_num)
  · exact (c5_store_then_lookup c2StoredReq
      { fixtureResp with qualityScore := none } "u1" 0 0).2.2 rfl

/-! ## C7 -/

/-- The estimated cost reported by `select_model` is the router's estimate
for the returned model on the optimised request, in the normal branch and
the smart-fallback branch alike. -/
theorem selectModel_estimatedCost (st : RouterState) (req : AIRequest) :
    (selectModel st req).estimatedCost
      = estimateCost (selectModel st req).model (applySmartOptimizations req) := by
  simp only [selectModel]
  generalize sortScoredDesc _ = s
  cases s with
  | nil => rfl
  | cons best rest => rfl

/-- A request with no words and no vision requirement is estimated at zero
cost for every model. -/
theorem estimateCost_zero_words (model : ModelType) (req : AIRequest)
    (hw : wordCount req.content = 0) (hv : req.requiresVision = false) :
    estimateCost model req = 0 := by
  cases model <;>
    simp [estimateCost, hw, hv, MODEL_COSTS, ModelCosts.calculateCost]

/-- C7: whenever the budget check rejects (`can_proceed = false`), the
pipeline re-selects with the constrained request — complexity reduced by
one with floor 1, `max_cost` equal to the remaining budget — and the call
fails with the insufficient-budget error exactly when the cheaper
selection's estimate still exceeds the remaining budget; otherwise the
cheaper selection is dispatched. -/
theorem c7_budget_downgrade (st : RouterState) (req : AIRequest)
    (primary : ModelSelection) (check : BudgetCheck)
    (h : check.canProceed = false) :
    (constrainRequest req check.remainingBudget).complexity
      = max 1 (req.complexity - 1) ∧
    (constrainRequest req check.remainingBudget).maxCost
      = some check.remainingBudget ∧
    ((selectModel st (constrainRequest req check.remainingBudget)).estimatedCost >
        check.remainingBudget →
      processBudgetPhase st req primary check =
        Except.error (ServiceError.insufficientBudget primary.estimatedCost
          check.remainingBudget)) ∧
    ((selectModel st (constrainRequest req check.remainingBudget)).estimatedCost ≤
        check.remainingBudget →
      processBudgetPhase st req primary check =
        Except.ok (selectModel st (constrainRequest req check.remainingBudget))) := by
  refine ⟨rfl, rfl, ?_, ?_⟩
  · intro hgt
    simp only [processBudgetPhase, h, Bool.false_eq_true, if_false, selectCheaperModel]
    rw [if_neg (not_le.mpr hgt)]
  · intro hle
    simp only [processBudgetPhase, h, Bool.false_eq_true, if_false, selectCheaperModel]
    rw [if_pos hle]

/-- A rejected budget check with nothing left to spend. -/
def c7Check : BudgetCheck :=
  { canProceed := false, currentUsage := 1, monthlyLimit := 1, remainingBudget := 0,
    estimatedCost := 2, afterRequestUsage := 3, remainingRequestsAtThisCost := 0,
    percentageUsed := 100, wouldExceed := true }

/-- The request re-routed in the C7 witness (empty content, so every model
estimate is zero). -/
def c7Req : AIRequest :=
  { taskType := "analysis", complexity := 3, content := "", userTier := "free" }

/-- The primary selection rejected by the budget check in the C7 witness. -/
def c7Primary : ModelSelection :=
  { model := .geminiPro, confidence := 1/2, estimatedCost := 2, fallbacks := [] }

/-- C7 witness: with the check rejecting and a zero remaining budget, the
zero-cost cheaper selection fits and is dispatched. -/
theorem c7_witness :
    c7Check.canProceed = false ∧
    processBudgetPhase {} c7Req c7Primary c7Check
      = Except.ok (selectModel {} (constrainRequest c7Req c7Check.remainingBudget)) := by
  have hw : wordCount (applySmartOptimizations
      (constrainRequest c7Req c7Check.remainingBudget)).content = 0 := rfl
  have hv : (applySmartOptimizations
      (constrainRequest c7Req c7Check.remainingBudget)).requiresVision = false := rfl
  have hle : (selectModel {} (constrainRequest c7Req c7Check.remainingBudget)).estimatedCost
      ≤ c7Check.remainingBudget := by
    rw [selectModel_estimatedCost, estimateCost_zero_words _ _ hw hv,
      show c7Check.remainingBudget = 0 from rfl]
  exact ⟨rfl, (c7_budget_downgrade {} c7Req c7Primary c7Check rfl).2.2.2 hle⟩

/-! ## C10 -/

/-- Stats deltas of one `get_cached_response` call: a hit bumps only
`cache_hits` (and the cost saved), a miss bumps `cache_misses` AND
`total_requests`. -/
theorem getCachedResponse_stats_step (σ : CacheState) (now : ℕ) (req : CacheRequest)
    (uid : String) :
    (getCachedResponse σ now req uid).2.stats.totalRequests
        = σ.stats.totalRequests
          + (if (getCachedResponse σ now req uid).1.isSome then 0 else 1) ∧
    (getCachedResponse σ now req uid).2.stats.cacheMisses
        = σ.stats.cacheMisses
          + (if (getCachedResponse σ now req uid).1.isSome then 0 else 1) ∧
    (getCachedResponse σ now req uid).2.stats.cacheHits
        = σ.stats.cacheHits
          + (if (getCachedResponse σ now req uid).1.isSome then 1 else 0) := by
  simp only [getCachedResponse]
  rcases hE : getExactMatch σ.entries (generateRequestHash req uid) now with ⟨r, entries1⟩
  cases r with
  | some resp => simp [recordCacheHit]
  | none =>
      by_cases hf : (cacheConfig req.taskType).enableFuzzyMatching
      · simp only [hf, if_true]
        cases hFz : getFuzzyMatch ({ σ with entries := entries1 } : CacheState).entries
            now req with
        | some resp => simp [hFz, recordCacheHit]
        | none => simp [hFz, recordCacheMiss]
      · simp [hf, recordCacheMiss]

/-- Counter totals over any lookup sequence: `total_requests` and
`cache_misses` both advance by the number of misses, `cache_hits` by the
number of hits. -/
theorem processLookups_stats (σ : CacheState) (now : ℕ)
    (reqs : List (CacheRequest × String)) :
    (processLookups σ now reqs).1.stats.totalRequests
      = σ.stats.totalRequests + (processLookups σ now reqs).2.count false ∧
    (processLookups σ now reqs).1.stats.cacheMisses
      = σ.stats.cacheMisses + (processLookups σ now reqs).2.count false ∧
    (processLookups σ now reqs).1.stats.cacheHits
      = σ.stats.cacheHits + (processLookups σ now reqs).2.count true := by
  induction reqs generalizing σ with
  | nil => simp [processLookups]
  | cons p rest ih =>
      obtain ⟨req, uid⟩ := p
      obtain ⟨h1, h2, h3⟩ := getCachedResponse_stats_step σ now req uid
      obtain ⟨i1, i2, i3⟩ := ih (getCachedResponse σ now req uid).2
      simp only [processLookups, List.count_cons]
      cases hs : (getCachedResponse σ now req uid).1.isSome <;>
        rw [hs] at h1 h2 h3 <;>
        simp only [i1, i2, i3, h1, h2, h3] <;>
        simp <;> omega

/-- C10: starting from zeroed stats, after any sequence of lookups
`total_requests` equals the number of misses (hit recording leaves it and
`cache_misses` untouched), so once any hit has occurred
`total_requests ≠ cache_hits + cache_misses`, and the reported hit rate is
`cache_hits / cache_misses · 100` (rounded to two digits as the source
reports it). -/
theorem c10_stats_count_misses (σ : CacheState) (now : ℕ)
    (reqs : List (CacheRequest × String)) (storage : ℚ)
    (hinit : σ.stats = {}) :
    (processLookups σ now reqs).1.stats.totalRequests
      = (processLookups σ now reqs).2.count false ∧
    (processLookups σ now reqs).1.stats.cacheMisses
      = (processLookups σ now reqs).2.count false ∧
    (processLookups σ now reqs).1.stats.cacheHits
      = (processLookups σ now reqs).2.count true ∧
    (1 ≤ (processLookups σ now reqs).2.count true →
      (processLookups σ now reqs).1.stats.totalRequests
        ≠ (processLookups σ now reqs).1.stats.cacheHits
          + (processLookups σ now reqs).1.stats.cacheMisses) ∧
    (0 < (processLookups σ now reqs).2.count false →
      (getCacheStats (processLookups σ now reqs).1.stats storage).hitRate
        = pyRound (((processLookups σ now reqs).1.stats.cacheHits : ℚ)
            / ((processLookups σ now reqs).1.stats.cacheMisses : ℚ) * 100) 2) := by
  obtain ⟨h1, h2, h3⟩ := processLookups_stats σ now reqs
  rw [hinit] at h1 h2 h3
  simp only [show (({} : CacheStatsState)).totalRequests = 0 from rfl,
    show (({} : CacheStatsState)).cacheMisses = 0 from rfl,
    show (({} : CacheStatsState)).cacheHits = 0 from rfl, Nat.zero_add] at h1 h2 h3
  refine ⟨h1, h2, h3, ?_, ?_⟩
  · intro hhit
    rw [h1, h2, h3]
    omega
  · intro hmisses
    simp only [getCacheStats, h1, h2]
    rw [if_pos hmisses]

/-- A request cached for the C10 witness (code-generation: fuzzy matching
disabled). -/
def c10Req : CacheRequest :=
  { taskType := .codeGeneration, complexity := 2, content := "make a button",
    userTier := "free" }

/-- A differing request, so the second witness lookup misses. -/
def c10ReqMiss : CacheRequest :=
  { taskType := .codeGeneration, complexity := 2, content := "make a modal",
    userTier := "free" }

/-- The C10 witness cache: one entry, zeroed stats. -/
def c10State : CacheState := cacheResponse {} 0 c10Req fixtureResp "u"

/-- C10 witness: one hit and one miss leave `total_requests = 1 =`
miss count `≠ cache_hits + cache_misses = 2`. -/
theorem c10_witness :
    c10State.stats = ({} : CacheStatsState) ∧
    1 ≤ (processLookups c10State 0 [(c10Req, "u"), (c10ReqMiss, "u")]).2.count true ∧
    (processLookups c10State 0 [(c10Req, "u"), (c10ReqMiss, "u")]).1.stats.totalRequests
      ≠ (processLookups c10State 0 [(c10Req, "u"), (c10ReqMiss, "u")]).1.stats.cacheHits
        + (processLookups c10State 0 [(c10Req, "u"), (c10ReqMiss, "u")]).1.stats.cacheMisses := by
  have houts : (processLookups c10State 0 [(c10Req, "u"), (c10ReqMiss, "u")]).2
      = [true, false] := rfl
  refine ⟨rfl, ?_, ?_⟩
  · rw [houts]
    decide
  · exact (c10_stats_count_misses c10State 0 [(c10Req, "u"), (c10ReqMiss, "u")] 0
      rfl).2.2.2.1 (by rw [houts]; decide)

end AIWebBuilder
